import Mathlib

/-!
Verification of the fantasy-pl-mcp transport bridge.

The servers under src/ (mcp_http_server.py, working_cloud_run_server.py,
cloud_run_server.py, simple_cloud_run_server.py, server.py) are shallowly
embedded below.  JSON values exchanged on the wire are modelled by the
`Json` inductive; a `Json.obj` models an already-parsed Python dict, so its
keys are unique.  Python floats appearing only as timestamps are modelled
as integers supplied by a time oracle parameter.
-/

/-- A JSON value / parsed Python object. -/
inductive Json where
  | null : Json
  | bool : Bool → Json
  | num : Int → Json
  | str : String → Json
  | arr : List Json → Json
  | obj : List (String × Json) → Json
deriving Repr

/-- Python dict lookup: first binding for the key (keys are unique). -/
def Json.lookup : Json → String → Option Json
  | .obj kvs, k => kvs.lookup k
  | _, _ => none

/-- Python `dict.get(k, default)`: the stored value when the key is
present (even if it is `None`), the default otherwise. -/
def Json.getD (j : Json) (k : String) (d : Json) : Json :=
  (j.lookup k).getD d

/-- Python truthiness of a parsed JSON value (`if not x` tests). -/
def Json.isTruthy : Json → Bool
  | .null => false
  | .bool b => b
  | .num n => n != 0
  | .str s => s != ""
  | .arr l => !l.isEmpty
  | .obj l => !l.isEmpty

/-- Whether the value is a Python dict (has attribute `get`). -/
def Json.isObj : Json → Bool
  | .obj _ => true
  | _ => false

/-- Python `x == "s"` where `x` is an arbitrary parsed value: true only
when `x` is the string `s` itself. -/
def Json.eqStr (j : Json) (s : String) : Bool :=
  match j with
  | .str t => t == s
  | _ => false

/-- Python type name, as it appears in AttributeError messages. -/
def pyTypeName : Json → String
  | .null => "NoneType"
  | .bool _ => "bool"
  | .num _ => "int"
  | .str _ => "str"
  | .arr _ => "list"
  | .obj _ => "dict"

/-- Message of the AttributeError raised by `x.get(...)` on a non-dict. -/
def attrGetMsg (j : Json) : String :=
  "\x27" ++ pyTypeName j ++ "\x27 object has no attribute \x27get\x27"

/-- JSON string escaping as performed by Python `json.dumps`
(ASCII inputs; quote and backslash escaped, newline/tab/cr named). -/
def jsonEscapeChar (c : Char) : String :=
  if c = '"' then "\\\""
  else if c = '\\' then "\\\\"
  else if c = '\n' then "\\n"
  else if c = '\t' then "\\t"
  else if c = '\r' then "\\r"
  else String.singleton c

def jsonEscape (s : String) : String :=
  String.join (s.toList.map jsonEscapeChar)

mutual
/-- Python `json.dumps(x)` with the default separators. -/
def pyDumps : Json → String
  | .null => "null"
  | .bool true => "true"
  | .bool false => "false"
  | .num n => toString n
  | .str s => "\"" ++ jsonEscape s ++ "\""
  | .arr xs => "[" ++ pyDumpsList xs ++ "]"
  | .obj kvs => "\x7b" ++ pyDumpsObj kvs ++ "\x7d"

def pyDumpsList : List Json → String
  | [] => ""
  | [x] => pyDumps x
  | x :: xs => pyDumps x ++ ", " ++ pyDumpsList xs

def pyDumpsObj : List (String × Json) → String
  | [] => ""
  | [(k, v)] => "\"" ++ jsonEscape k ++ "\": " ++ pyDumps v
  | (k, v) :: kvs => "\"" ++ jsonEscape k ++ "\": " ++ pyDumps v ++ ", " ++ pyDumpsObj kvs
end

/-- Two spaces of indentation per level (`indent=2`). -/
def indentOf (lvl : Nat) : String :=
  String.join (List.replicate lvl "  ")

mutual
/-- Python `json.dumps(x, indent=2)` at nesting level `lvl`. -/
def pyDumpsI (lvl : Nat) : Json → String
  | .null => "null"
  | .bool true => "true"
  | .bool false => "false"
  | .num n => toString n
  | .str s => "\"" ++ jsonEscape s ++ "\""
  | .arr [] => "[]"
  | .arr xs =>
      "[\n" ++ pyDumpsIList (lvl + 1) xs ++ "\n" ++ indentOf lvl ++ "]"
  | .obj [] => "\x7b\x7d"
  | .obj kvs =>
      "\x7b\n" ++ pyDumpsIObj (lvl + 1) kvs ++ "\n" ++ indentOf lvl ++ "\x7d"

def pyDumpsIList (lvl : Nat) : List Json → String
  | [] => ""
  | [x] => indentOf lvl ++ pyDumpsI lvl x
  | x :: xs => indentOf lvl ++ pyDumpsI lvl x ++ ",\n" ++ pyDumpsIList lvl xs

def pyDumpsIObj (lvl : Nat) : List (String × Json) → String
  | [] => ""
  | [(k, v)] => indentOf lvl ++ "\"" ++ jsonEscape k ++ "\": " ++ pyDumpsI lvl v
  | (k, v) :: kvs =>
      indentOf lvl ++ "\"" ++ jsonEscape k ++ "\": " ++ pyDumpsI lvl v ++ ",\n"
        ++ pyDumpsIObj lvl kvs
end

/-- Python `str(x)` as interpolated into f-string error messages. -/
def pyStr : Json → String
  | .null => "None"
  | .bool true => "True"
  | .bool false => "False"
  | .num n => toString n
  | .str s => s
  | j => pyDumps j

/-- An HTTP response: status code plus JSON body. -/
structure HttpResponse where
  status : Nat
  body : Json
deriving Repr

example : (Json.obj [("a", Json.num 1)]).lookup "a" = some (Json.num 1) := by rfl
example : pyDumps (Json.obj [("a", Json.arr [Json.num 1, Json.str "x"])])
    = "\x7b\"a\": [1, \"x\"]\x7d" := by rfl

/-- JSON-RPC error envelope without a `data` field. -/
def rpcErr (rid : Json) (code : Int) (msg : String) : Json :=
  Json.obj [("jsonrpc", Json.str "2.0"), ("id", rid),
    ("error", Json.obj [("code", Json.num code), ("message", Json.str msg)])]

/-- JSON-RPC error envelope with a `data` field. -/
def rpcErrData (rid : Json) (code : Int) (msg : String) (data : Json) : Json :=
  Json.obj [("jsonrpc", Json.str "2.0"), ("id", rid),
    ("error", Json.obj [("code", Json.num code), ("message", Json.str msg),
      ("data", data)])]

/-- JSON-RPC success envelope. -/
def rpcOk (rid : Json) (result : Json) : Json :=
  Json.obj [("jsonrpc", Json.str "2.0"), ("id", rid), ("result", result)]

/-- The `serverInfo` block shared by every server variant. -/
def serverInfoJson : Json :=
  Json.obj [("name", Json.str "Fantasy Premier League MCP Server"),
    ("version", Json.str "0.1.6")]

/-!
Section: mcp_http_server.py — MCPTransportHandler

The outcome of `json.loads` on the request bytes: either a parsed value or
a `JSONDecodeError`.
-/

inductive Body where
  | malformed : String → Body
  | parsed : Json → Body

/-- Embeds `MCPTransportHandler._handle_initialize` (mcp_http_server.py:242). -/
def mcpHttp_handle_init (rid : Json) : Json :=
  rpcOk rid (Json.obj [
    ("protocolVersion", Json.str "2024-11-05"),
    ("capabilities", Json.obj [
      ("resources", Json.obj []), ("tools", Json.obj []),
      ("prompts", Json.obj []), ("logging", Json.obj [])]),
    ("serverInfo", serverInfoJson)])

/-- Embeds `MCPTransportHandler._handle_resources_list` (mcp_http_server.py:262). -/
def mcpHttp_handle_resources_list (rid : Json) : Json :=
  rpcOk rid (Json.obj [("resources", Json.arr [
    Json.obj [("uri", Json.str "fpl://static/players"),
      ("name", Json.str "All Players"),
      ("description", Json.str "All FPL players with comprehensive statistics"),
      ("mimeType", Json.str "application/json")],
    Json.obj [("uri", Json.str "fpl://static/teams"),
      ("name", Json.str "All Teams"),
      ("description", Json.str "All Premier League teams with strength ratings"),
      ("mimeType", Json.str "application/json")],
    Json.obj [("uri", Json.str "fpl://gameweeks/current"),
      ("name", Json.str "Current Gameweek"),
      ("description", Json.str "Information about the current gameweek"),
      ("mimeType", Json.str "application/json")],
    Json.obj [("uri", Json.str "fpl://gameweeks/all"),
      ("name", Json.str "All Gameweeks"),
      ("description", Json.str "Information about all gameweeks"),
      ("mimeType", Json.str "application/json")],
    Json.obj [("uri", Json.str "fpl://fixtures"),
      ("name", Json.str "All Fixtures"),
      ("description", Json.str "All fixtures for the current Premier League season"),
      ("mimeType", Json.str "application/json")]])])

/-- Embeds `MCPTransportHandler._handle_resources_read` (mcp_http_server.py:304),
called with a dict `params`. -/
def mcpHttp_handle_resources_read (rid : Json) (params : Json) : Json :=
  let uri := params.getD "uri" Json.null
  if !uri.isTruthy then
    rpcErr rid (-32602) "Missing uri parameter"
  else
    rpcOk rid (Json.obj [("contents", Json.arr [
      Json.obj [("uri", uri), ("mimeType", Json.str "application/json"),
        ("text", Json.str (pyDumps (Json.obj
          [("message", Json.str ("Resource " ++ pyStr uri ++ " would be fetched here"))])))]])])

/-- Embeds `MCPTransportHandler._handle_tools_list` (mcp_http_server.py:329). -/
def mcpHttp_handle_tools_list (rid : Json) : Json :=
  rpcOk rid (Json.obj [("tools", Json.arr [
    Json.obj [("name", Json.str "compare_players"),
      ("description", Json.str "Compare multiple players across various metrics"),
      ("inputSchema", Json.obj [("type", Json.str "object"),
        ("properties", Json.obj [
          ("player_names", Json.obj [("type", Json.str "array"),
            ("items", Json.obj [("type", Json.str "string")]),
            ("description", Json.str "List of player names to compare")]),
          ("metrics", Json.obj [("type", Json.str "array"),
            ("items", Json.obj [("type", Json.str "string")]),
            ("description", Json.str "Metrics to compare (e.g., total_points, form, goals_scored)")])]),
        ("required", Json.arr [Json.str "player_names"])])],
    Json.obj [("name", Json.str "analyze_player_fixtures"),
      ("description", Json.str "Analyze upcoming fixtures for a player"),
      ("inputSchema", Json.obj [("type", Json.str "object"),
        ("properties", Json.obj [
          ("player_name", Json.obj [("type", Json.str "string"),
            ("description", Json.str "Name of the player to analyze")]),
          ("num_fixtures", Json.obj [("type", Json.str "integer"),
            ("description", Json.str "Number of upcoming fixtures to analyze"),
            ("default", Json.num 5)])]),
        ("required", Json.arr [Json.str "player_name"])])],
    Json.obj [("name", Json.str "get_gameweek_status"),
      ("description", Json.str "Get information about current, previous, and next gameweeks"),
      ("inputSchema", Json.obj [("type", Json.str "object"),
        ("properties", Json.obj [])])]])])

/-- Embeds `MCPTransportHandler._handle_tools_call` (mcp_http_server.py:387),
called with a dict `params`. -/
def mcpHttp_handle_tools_call (rid : Json) (params : Json) : Json :=
  let name := params.getD "name" Json.null
  let args := params.getD "arguments" (Json.obj [])
  if !name.isTruthy then
    rpcErr rid (-32602) "Missing tool name"
  else
    rpcOk rid (Json.obj [("content", Json.arr [
      Json.obj [("type", Json.str "text"),
        ("text", Json.str ("Tool " ++ pyStr name
          ++ " would be executed here with arguments: " ++ pyDumps args))]])])

/-- Embeds `MCPTransportHandler._handle_prompts_list` (mcp_http_server.py:413). -/
def mcpHttp_handle_prompts_list (rid : Json) : Json :=
  rpcOk rid (Json.obj [("prompts", Json.arr [
    Json.obj [("name", Json.str "player_analysis_prompt"),
      ("description", Json.str "Create a prompt for analyzing an FPL player in depth"),
      ("arguments", Json.arr [
        Json.obj [("name", Json.str "player_name"),
          ("description", Json.str "Name of the player to analyze"),
          ("required", Json.bool true)],
        Json.obj [("name", Json.str "include_comparisons"),
          ("description", Json.str "Whether to compare with similar players"),
          ("required", Json.bool false)]])],
    Json.obj [("name", Json.str "transfer_advice_prompt"),
      ("description", Json.str "Create a prompt for getting detailed FPL transfer advice"),
      ("arguments", Json.arr [
        Json.obj [("name", Json.str "budget"),
          ("description", Json.str "Available budget in millions"),
          ("required", Json.bool true)],
        Json.obj [("name", Json.str "position"),
          ("description", Json.str "Position to target (optional)"),
          ("required", Json.bool false)]])]])])

/-- Embeds `MCPTransportHandler._handle_prompts_get` (mcp_http_server.py:456),
called with a dict `params`. -/
def mcpHttp_handle_prompts_get (rid : Json) (params : Json) : Json :=
  let name := params.getD "name" Json.null
  let args := params.getD "arguments" (Json.obj [])
  if !name.isTruthy then
    rpcErr rid (-32602) "Missing prompt name"
  else
    rpcOk rid (Json.obj [
      ("description", Json.str ("Prompt " ++ pyStr name)),
      ("messages", Json.arr [
        Json.obj [("role", Json.str "user"),
          ("content", Json.obj [("type", Json.str "text"),
            ("text", Json.str ("Prompt " ++ pyStr name
              ++ " would be generated here with arguments: " ++ pyDumps args))])]])])

/-- Embeds `MCPTransportHandler._process_mcp_request` (mcp_http_server.py:200).
The three handlers that call `params.get` raise `AttributeError` when
`params` is not a dict; the surrounding `try` turns that into the
`-32603` envelope. -/
def mcpHttp_process_mcp_request (request : Json) : Json :=
  let method := request.getD "method" Json.null
  let params := request.getD "params" (Json.obj [])
  let rid := request.getD "id" Json.null
  if method.eqStr "initialize" then
    mcpHttp_handle_init rid
  else if method.eqStr "resources/list" then
    mcpHttp_handle_resources_list rid
  else if method.eqStr "resources/read" then
    if params.isObj then mcpHttp_handle_resources_read rid params
    else rpcErrData rid (-32603) "Internal error" (Json.str (attrGetMsg params))
  else if method.eqStr "tools/list" then
    mcpHttp_handle_tools_list rid
  else if method.eqStr "tools/call" then
    if params.isObj then mcpHttp_handle_tools_call rid params
    else rpcErrData rid (-32603) "Internal error" (Json.str (attrGetMsg params))
  else if method.eqStr "prompts/list" then
    mcpHttp_handle_prompts_list rid
  else if method.eqStr "prompts/get" then
    if params.isObj then mcpHttp_handle_prompts_get rid params
    else rpcErrData rid (-32603) "Internal error" (Json.str (attrGetMsg params))
  else
    rpcErr rid (-32601) ("Method not found: " ++ pyStr method)

/-- Embeds `MCPTransportHandler._send_error_response` body (mcp_http_server.py:486):
a plain HTTP error payload, not a JSON-RPC envelope. -/
def mcpHttp_send_error_body (now : Int) (status : Nat) (msg : String) : Json :=
  Json.obj [("error", Json.obj [("code", Json.num status),
    ("message", Json.str msg), ("timestamp", Json.num now)])]

/-- Embeds `MCPTransportHandler._handle_mcp_request` (mcp_http_server.py:170).
`body` is the outcome of `json.loads`; a parsed non-dict raises
`AttributeError` at the `request_data.get` call, caught by the generic
`except` branch which sends HTTP 500. -/
def mcpHttp_handle_mcp_request (now : Int) (contentLength : Nat) (body : Body) :
    HttpResponse :=
  if contentLength = 0 then
    ⟨400, mcpHttp_send_error_body now 400 "Empty request body"⟩
  else
    match body with
    | .malformed _ => ⟨400, mcpHttp_send_error_body now 400 "Invalid JSON"⟩
    | .parsed j =>
      if j.isObj then ⟨200, mcpHttp_process_mcp_request j⟩
      else ⟨500, mcpHttp_send_error_body now 500 ("Internal error: " ++ attrGetMsg j)⟩

/-!
Section: mcp_http_server.py — SSE stream (`_handle_sse_connection`, lines 138-162)

The loop is `while True`: after the initial `connection` event it emits a
`ping` event every interval, forever, stopping only when a write raises.
The trace semantics: the event of write `n` is delivered iff no write up
to `n` has failed; `writeOk k` says whether the `k`-th write succeeds and
`now k` gives the clock at the `k`-th write.
-/

/-- Initial `connection` event of mcp_http_server.py:148 — note it carries
no domain-availability flag and the pings below carry no counter. -/
def mcpHttp_connection_event : Json :=
  Json.obj [("type", Json.str "connection"), ("status", Json.str "connected"),
    ("server", Json.str "Fantasy Premier League MCP Server")]

/-- The `ping` event of mcp_http_server.py:156. -/
def mcpHttp_ping_event (t : Int) : Json :=
  Json.obj [("type", Json.str "ping"), ("timestamp", Json.num t)]

/-- Whether all writes up to index `n` succeed. -/
def writesOkUpTo (writeOk : Nat → Bool) (n : Nat) : Bool :=
  (List.range (n + 1)).all writeOk

/-- Event delivered by the `n`-th write of the mcp_http SSE loop, or
`none` if the session already died (a write at or before `n` failed). -/
def mcpHttp_sse_event (now : Nat → Int) (writeOk : Nat → Bool) (n : Nat) :
    Option Json :=
  if writesOkUpTo writeOk n then
    some (if n = 0 then mcpHttp_connection_event else mcpHttp_ping_event (now n))
  else none

/-!
Section: The Async Execution Bridge

A unit of work submitted to the bridge is abstracted by how long the
coroutine takes to complete on the loop and what it produces: a value, or
a raised exception (modelled by its message).
-/

structure AsyncWork where
  duration : Nat
  result : Except String Json

/-- Embeds `WorkingMCPHandler.run_async` (working_cloud_run_server.py:80).
When the owned loop is running, `future.result(timeout=30)` waits at most
30 seconds and raises `TimeoutError` once the deadline elapses (the
coroutine keeps running; its eventual result is discarded).  When the
loop is not running, `loop.run_until_complete(coro)` runs the work to
completion with no deadline.  The `except` clause logs and re-raises, so
every failure propagates to the caller.  Returns (outcome, seconds the
calling thread was blocked). -/
def run_async (loopRunning : Bool) (w : AsyncWork) : Except String Json × Nat :=
  if loopRunning then
    if w.duration ≤ 30 then (w.result, w.duration)
    else (Except.error "TimeoutError", 30)
  else (w.result, w.duration)

/-- Embeds `run_async_in_thread` (cloud_run_server.py:65).  With no loop it
returns `None` at once; otherwise it waits `future.result(timeout=30)`
and catches every exception (timeout included), logging it and returning
`None`.  Returns (outcome, seconds the calling thread was blocked). -/
def run_async_in_thread (loopUp : Bool) (w : AsyncWork) : Option Json × Nat :=
  if loopUp then
    if w.duration ≤ 30 then
      ((match w.result with | .ok v => some v | .error _ => none), w.duration)
    else (none, 30)
  else (none, 0)

/-!
Section: cloud_run_server.py — SSE stream (`_handle_sse_connection`, lines 172-203)

One `connection` event (carrying the `mcp_available` flag), then pings
with a `count` field while `ping_count < 120`; write `c + 1` carries ping
number `c`.  A failed write ends the session.
-/

def cloudRun_connection_event (mcpAvailable : Bool) : Json :=
  Json.obj [("type", Json.str "connection"), ("status", Json.str "connected"),
    ("server", Json.str "Fantasy Premier League MCP Server"),
    ("mcp_available", Json.bool mcpAvailable)]

def cloudRun_ping_event (t : Int) (count : Nat) : Json :=
  Json.obj [("type", Json.str "ping"), ("timestamp", Json.num t),
    ("count", Json.num count)]

/-- Ping events delivered from counter `c` with `b` loop iterations left
(`b = 120 - c` on entry). -/
def cloudRun_ping_trace (now : Nat → Int) (writeOk : Nat → Bool) :
    Nat → Nat → List Json
  | _, 0 => []
  | c, b + 1 =>
    if writeOk (c + 1) then
      cloudRun_ping_event (now (c + 1)) c :: cloudRun_ping_trace now writeOk (c + 1) b
    else []

/-- Full event trace of one cloud_run SSE session. -/
def cloudRun_sse_trace (mcpAvailable : Bool) (now : Nat → Int)
    (writeOk : Nat → Bool) : List Json :=
  if writeOk 0 then
    cloudRun_connection_event mcpAvailable :: cloudRun_ping_trace now writeOk 0 120
  else []

/-!
Section: working_cloud_run_server.py — WorkingMCPHandler

The domain layer (resource providers reached through `run_async`) is an
external collaborator; each call either yields a value or raises (an
`Except.error` message, which also covers a bridge timeout).
-/

/-- Python `s.startswith(p)` (String.isPrefixOf does not kernel-reduce,
so prefix tests are carried out on the character lists). -/
def strStartsWith (s p : String) : Bool := p.toList.isPrefixOf s.toList

/-- Python `s.endswith(p)`. -/
def strEndsWith (s p : String) : Bool := p.toList.isSuffixOf s.toList

/-- Python `uri.split("/")[-1]`. -/
def lastSeg (s : String) : String :=
  (s.splitOn "/").getLastD ""

/-- Python `uri.split("/")[-2]` (total here; every use site guarantees at
least two segments via its `startswith` guard). -/
def penultSeg (s : String) : String :=
  ((s.splitOn "/").reverse.drop 1).headD ""

/-- Python `int(s)` on a decimal literal with optional surrounding
whitespace and sign; `none` models the `ValueError`. -/
def pyParseInt (s : String) : Option Int :=
  let t := s.trim
  if t.startsWith "-" then ((t.drop 1).toNat?).map (fun n => -(n : Int))
  else if t.startsWith "+" then ((t.drop 1).toNat?).map (fun n => (n : Int))
  else (t.toNat?).map (fun n => (n : Int))

/-- Python `x[k]` for a string key: the value, or the raised
KeyError/TypeError message. -/
def pyIndex (j : Json) (k : String) : Except String Json :=
  match j with
  | .obj kvs =>
    match kvs.lookup k with
    | some v => Except.ok v
    | none => Except.error ("\x27" ++ k ++ "\x27")
  | _ => Except.error ("\x27" ++ pyTypeName j ++ "\x27 object is not subscriptable")

/-- The domain collaborators of `self.fpl_resources`, as reached through
`run_async`: each field is the outcome of the corresponding awaited call
(`Except.error` = the call, or the bridge, raised). -/
structure Domain where
  playersResource : Except String Json
  findPlayersByName : String → Except String (List Json)
  teamsResource : Except String Json
  teamByName : String → Except String Json
  currentGameweek : Except String Json
  allGameweeks : Except String Json
  fixturesResource : Except String Json
  fixturesByGameweek : Int → Except String Json
  fixturesByTeam : String → Except String Json
  playerFixtures : Json → Except String Json
  blankGameweeks : Except String Json
  doubleGameweeks : Except String Json

/-- Embeds `WorkingMCPHandler._get_resource_data` (working_cloud_run_server.py:337)
on a string URI, following the branch chain in source order.  Any raise
from the domain (or the bridge) propagates — the function re-raises. -/
def get_resource_data_str (d : Domain) (s : String) : Except String Json :=
  if s == "fpl://static/players" then d.playersResource
  else if strStartsWith s "fpl://static/players/" then
    let player_name := lastSeg s
    match d.findPlayersByName player_name with
    | .error e => .error e
    | .ok ms =>
      if !ms.isEmpty then .ok (ms.headD Json.null)
      else .ok (Json.obj [("error",
        Json.str ("No player found matching \x27" ++ player_name ++ "\x27"))])
  else if s == "fpl://static/teams" then d.teamsResource
  else if strStartsWith s "fpl://static/teams/" then
    let team_name := lastSeg s
    match d.teamByName team_name with
    | .error e => .error e
    | .ok team =>
      if team.isTruthy then .ok team
      else .ok (Json.obj [("error",
        Json.str ("No team found matching \x27" ++ team_name ++ "\x27"))])
  else if s == "fpl://gameweeks/current" then d.currentGameweek
  else if s == "fpl://gameweeks/all" then d.allGameweeks
  else if s == "fpl://fixtures" then d.fixturesResource
  else if strStartsWith s "fpl://fixtures/gameweek/" then
    match pyParseInt (lastSeg s) with
    | none => .error ("invalid literal for int() with base 10: \x27" ++ lastSeg s ++ "\x27")
    | some gw => d.fixturesByGameweek gw
  else if strStartsWith s "fpl://fixtures/team/" then
    d.fixturesByTeam (lastSeg s)
  else if strStartsWith s "fpl://players/" && strEndsWith s "/fixtures" then
    let player_name := penultSeg s
    match d.findPlayersByName player_name with
    | .error e => .error e
    | .ok ms =>
      if ms.isEmpty then .ok (Json.obj [("error",
        Json.str ("No player found matching \x27" ++ player_name ++ "\x27"))])
      else
        let player := ms.headD Json.null
        match pyIndex player "id" with
        | .error e => .error e
        | .ok pid =>
          match d.playerFixtures pid with
          | .error e => .error e
          | .ok pfx =>
            match pyIndex player "name", pyIndex player "team", pyIndex player "position" with
            | .ok pn, .ok pt, .ok pp =>
              .ok (Json.obj [("player", Json.obj [("name", pn), ("team", pt),
                ("position", pp)]), ("fixtures", pfx)])
            | .error e, _, _ => .error e
            | _, .error e, _ => .error e
            | _, _, .error e => .error e
  else if s == "fpl://gameweeks/blank" then d.blankGameweeks
  else if s == "fpl://gameweeks/double" then d.doubleGameweeks
  else .ok (Json.obj [("error", Json.str ("Unknown resource URI: " ++ s))])

/-- Embeds `_get_resource_data` on an arbitrary `uri` value: a non-string passes
the first `==` test and then raises on `.startswith`. -/
def get_resource_data (d : Domain) (uri : Json) : Except String Json :=
  match uri with
  | .str s => get_resource_data_str d s
  | j => .error ("\x27" ++ pyTypeName j ++ "\x27 object has no attribute \x27startswith\x27")

/-- A call into the tool layer of `src.fpl_mcp.__main__`, recording the
arguments actually passed (defaults already applied). -/
inductive ToolInvocation where
  | comparePlayers (player_names metrics include_gameweeks num_gameweeks
      include_fixture_analysis : Json)
  | analyzePlayerFixtures (player_name num_fixtures : Json)
  | getGameweekStatus
  | analyzePlayers (kwargs : Json)
  | analyzeFixtures (kwargs : Json)
  | getBlankGameweeks (num_gameweeks : Json)
  | getDoubleGameweeks (num_gameweeks : Json)

/-- Default `metrics` list of `_execute_tool`
(working_cloud_run_server.py:416). -/
def defaultMetrics : Json :=
  Json.arr [Json.str "total_points", Json.str "form", Json.str "goals_scored",
    Json.str "assists", Json.str "bonus"]

/-- Embeds `WorkingMCPHandler._execute_tool` (working_cloud_run_server.py:402).
`tools` is the domain tool layer reached through `run_async` (an
`Except.error` is a raise, bridge timeout included); `arguments.get` on a
non-dict raises, and `analyze_players(**arguments)` needs a mapping. -/
def execute_tool (tools : ToolInvocation → Except String Json)
    (name : Json) (args : Json) : Except String Json :=
  if name.eqStr "compare_players" then
    if args.isObj then
      tools (.comparePlayers (args.getD "player_names" (Json.arr []))
        (args.getD "metrics" defaultMetrics)
        (args.getD "include_gameweeks" (Json.bool false))
        (args.getD "num_gameweeks" (Json.num 5))
        (args.getD "include_fixture_analysis" (Json.bool true)))
    else .error (attrGetMsg args)
  else if name.eqStr "analyze_player_fixtures" then
    if args.isObj then
      tools (.analyzePlayerFixtures (args.getD "player_name" Json.null)
        (args.getD "num_fixtures" (Json.num 5)))
    else .error (attrGetMsg args)
  else if name.eqStr "get_gameweek_status" then
    tools .getGameweekStatus
  else if name.eqStr "analyze_players" then
    if args.isObj then tools (.analyzePlayers args)
    else .error ("argument of type \x27" ++ pyTypeName args ++ "\x27 is not a mapping")
  else if name.eqStr "analyze_fixtures" then
    if args.isObj then tools (.analyzeFixtures args)
    else .error ("argument of type \x27" ++ pyTypeName args ++ "\x27 is not a mapping")
  else if name.eqStr "get_blank_gameweeks" then
    if args.isObj then
      tools (.getBlankGameweeks (args.getD "num_gameweeks" (Json.num 5)))
    else .error (attrGetMsg args)
  else if name.eqStr "get_double_gameweeks" then
    if args.isObj then
      tools (.getDoubleGameweeks (args.getD "num_gameweeks" (Json.num 5)))
    else .error (attrGetMsg args)
  else .ok (Json.obj [("error", Json.str ("Unknown tool: " ++ pyStr name))])

/-- Embeds `WorkingMCPHandler._process_mcp_request` (working_cloud_run_server.py:199).
`loaded` is whether `self.fpl_mcp_server` imported; the outer `try`
converts any raise (e.g. `params.get` on a non-dict) into `-32603` with
the raise message, via `_error_response` (no `data` field). -/
def working_process_mcp_request (loaded : Bool) (d : Domain)
    (tools : ToolInvocation → Except String Json) (request : Json) : Json :=
  let method := request.getD "method" Json.null
  let params := request.getD "params" (Json.obj [])
  let rid := request.getD "id" Json.null
  if !loaded then rpcErr rid (-32603) "MCP server not loaded"
  else if method.eqStr "initialize" then
    rpcOk rid (Json.obj [
      ("protocolVersion", Json.str "2024-11-05"),
      ("capabilities", Json.obj [
        ("resources", Json.obj []), ("tools", Json.obj []),
        ("prompts", Json.obj [])]),
      ("serverInfo", serverInfoJson)])
  else if method.eqStr "resources/list" then
    rpcOk rid (Json.obj [("resources", Json.arr [
      Json.obj [("uri", Json.str "fpl://static/players"),
        ("name", Json.str "All Players"),
        ("description", Json.str "All FPL players"),
        ("mimeType", Json.str "application/json")],
      Json.obj [("uri", Json.str "fpl://static/teams"),
        ("name", Json.str "All Teams"),
        ("description", Json.str "All Premier League teams"),
        ("mimeType", Json.str "application/json")],
      Json.obj [("uri", Json.str "fpl://gameweeks/current"),
        ("name", Json.str "Current Gameweek"),
        ("description", Json.str "Current gameweek info"),
        ("mimeType", Json.str "application/json")],
      Json.obj [("uri", Json.str "fpl://fixtures"),
        ("name", Json.str "Fixtures"),
        ("description", Json.str "All fixtures"),
        ("mimeType", Json.str "application/json")]])])
  else if method.eqStr "resources/read" then
    if params.isObj then
      let uri := params.getD "uri" Json.null
      if !uri.isTruthy then rpcErr rid (-32602) "Missing uri parameter"
      else
        match get_resource_data d uri with
        | .ok v => rpcOk rid (Json.obj [("contents", Json.arr [
            Json.obj [("uri", uri), ("mimeType", Json.str "application/json"),
              ("text", Json.str (pyDumps v))]])])
        | .error e => rpcErr rid (-32603) ("Failed to read resource: " ++ e)
    else rpcErr rid (-32603) (attrGetMsg params)
  else if method.eqStr "tools/list" then
    rpcOk rid (Json.obj [("tools", Json.arr [
      Json.obj [("name", Json.str "compare_players"),
        ("description", Json.str "Compare multiple players across various metrics"),
        ("inputSchema", Json.obj [("type", Json.str "object"),
          ("properties", Json.obj [
            ("player_names", Json.obj [("type", Json.str "array"),
              ("items", Json.obj [("type", Json.str "string")])]),
            ("metrics", Json.obj [("type", Json.str "array"),
              ("items", Json.obj [("type", Json.str "string")])])]),
          ("required", Json.arr [Json.str "player_names"])])],
      Json.obj [("name", Json.str "analyze_player_fixtures"),
        ("description", Json.str "Analyze upcoming fixtures for a player"),
        ("inputSchema", Json.obj [("type", Json.str "object"),
          ("properties", Json.obj [
            ("player_name", Json.obj [("type", Json.str "string")]),
            ("num_fixtures", Json.obj [("type", Json.str "integer"),
              ("default", Json.num 5)])]),
          ("required", Json.arr [Json.str "player_name"])])],
      Json.obj [("name", Json.str "get_gameweek_status"),
        ("description", Json.str "Get current gameweek information"),
        ("inputSchema", Json.obj [("type", Json.str "object"),
          ("properties", Json.obj [])])]])])
  else if method.eqStr "tools/call" then
    if params.isObj then
      let name := params.getD "name" Json.null
      let args := params.getD "arguments" (Json.obj [])
      if !name.isTruthy then rpcErr rid (-32602) "Missing tool name"
      else
        match execute_tool tools name args with
        | .ok v => rpcOk rid (Json.obj [("content", Json.arr [
            Json.obj [("type", Json.str "text"),
              ("text", Json.str (pyDumpsI 0 v))]])])
        | .error e => rpcErr rid (-32603) ("Tool execution failed: " ++ e)
    else rpcErr rid (-32603) (attrGetMsg params)
  else
    rpcErr rid (-32601) ("Method not found: " ++ pyStr method)

/-- Embeds `WorkingMCPHandler._send_error` body (working_cloud_run_server.py:454). -/
def working_send_error_body (now : Int) (status : Nat) (msg : String) : Json :=
  Json.obj [("error", Json.obj [("code", Json.num status),
    ("message", Json.str msg), ("timestamp", Json.num now)])]

/-- Embeds `WorkingMCPHandler._handle_mcp_request` (working_cloud_run_server.py:168).
Zero `Content-Length` → 400; `json.loads` failure → 400; a parsed
non-dict raises at `request_data.get` and the generic `except` sends 500
with `str(e)` as the message. -/
def working_handle_mcp_request (loaded : Bool) (d : Domain)
    (tools : ToolInvocation → Except String Json)
    (now : Int) (contentLength : Nat) (body : Body) : HttpResponse :=
  if contentLength = 0 then
    ⟨400, working_send_error_body now 400 "Empty request body"⟩
  else
    match body with
    | .malformed _ => ⟨400, working_send_error_body now 400 "Invalid JSON"⟩
    | .parsed j =>
      if j.isObj then ⟨200, working_process_mcp_request loaded d tools j⟩
      else ⟨500, working_send_error_body now 500 (attrGetMsg j)⟩

/-!
Section: server.py — MCPHandler
-/

/-- Embeds `MCPHandler._handle_mcp_request` (server.py:128), on a dict request
(a non-dict raises out of both `except` clauses and never produces an
envelope — see `serverPy_do_POST`). -/
def serverPy_handle_mcp_request (request : Json) : Json :=
  let method := request.getD "method" Json.null
  let rid := request.getD "id" Json.null
  if method.eqStr "initialize" then
    rpcOk rid (Json.obj [
      ("protocolVersion", Json.str "2024-11-05"),
      ("capabilities", Json.obj [
        ("resources", Json.obj []), ("tools", Json.obj []),
        ("prompts", Json.obj [])]),
      ("serverInfo", serverInfoJson)])
  else if method.eqStr "resources/list" then
    rpcOk rid (Json.obj [("resources", Json.arr [
      Json.obj [("uri", Json.str "fpl://static/players"),
        ("name", Json.str "All Players"),
        ("description", Json.str "All FPL players with statistics")],
      Json.obj [("uri", Json.str "fpl://static/teams"),
        ("name", Json.str "All Teams"),
        ("description", Json.str "All Premier League teams")],
      Json.obj [("uri", Json.str "fpl://gameweeks/current"),
        ("name", Json.str "Current Gameweek"),
        ("description", Json.str "Current gameweek information")],
      Json.obj [("uri", Json.str "fpl://fixtures"),
        ("name", Json.str "Fixtures"),
        ("description", Json.str "All fixtures for the season")]])])
  else if method.eqStr "tools/list" then
    rpcOk rid (Json.obj [("tools", Json.arr [
      Json.obj [("name", Json.str "compare_players"),
        ("description", Json.str "Compare multiple players across various metrics"),
        ("inputSchema", Json.obj [("type", Json.str "object"),
          ("properties", Json.obj [
            ("player_names", Json.obj [("type", Json.str "array"),
              ("items", Json.obj [("type", Json.str "string")])]),
            ("metrics", Json.obj [("type", Json.str "array"),
              ("items", Json.obj [("type", Json.str "string")])])])])],
      Json.obj [("name", Json.str "analyze_player_fixtures"),
        ("description", Json.str "Analyze upcoming fixtures for a player"),
        ("inputSchema", Json.obj [("type", Json.str "object"),
          ("properties", Json.obj [
            ("player_name", Json.obj [("type", Json.str "string")]),
            ("num_fixtures", Json.obj [("type", Json.str "integer")])])])]])])
  else
    rpcErr rid (-32601) ("Method not found: " ++ pyStr method)

/-- Embeds `MCPHandler.do_POST` on path `/mcp` (server.py:79).  A zero or
missing `Content-Length` does NOT yield 400 here: the handler dispatches
an empty request `{}` and answers 200.  `json.loads` failure hits the
`except` (server.py:100) before `request_data` exists, so the 500 body is
a JSON-RPC envelope with `id: null`.  A parsed non-dict raises again
inside both `except` blocks at `request_data.get("id")`, so no response
is written at all (`none`). -/
def serverPy_do_POST (mcpAvailable : Bool) (contentLength : Nat) (body : Body) :
    Option HttpResponse :=
  if mcpAvailable then
    if contentLength > 0 then
      match body with
      | .malformed e =>
        some ⟨500, rpcErrData Json.null (-32603) "Internal error" (Json.str e)⟩
      | .parsed j =>
        if j.isObj then some ⟨200, serverPy_handle_mcp_request j⟩
        else none
    else some ⟨200, serverPy_handle_mcp_request (Json.obj [])⟩
  else some ⟨404, Json.null⟩

/-!
Section: simple_cloud_run_server.py — SimpleCloudRunHandler
-/

/-- Embeds `SimpleCloudRunHandler._process_mcp_method` (simple_cloud_run_server.py:205).
Called with `method = request_data.get("method", "unknown")`, which may be
any parsed value. -/
def simple_process_mcp_method (method : Json) (params : Json) (rid : Json) : Json :=
  if method.eqStr "initialize" then
    rpcOk rid (Json.obj [
      ("protocolVersion", Json.str "2024-11-05"),
      ("capabilities", Json.obj [
        ("resources", Json.obj []), ("tools", Json.obj []),
        ("prompts", Json.obj [])]),
      ("serverInfo", serverInfoJson)])
  else if method.eqStr "resources/list" then
    rpcOk rid (Json.obj [("resources", Json.arr [
      Json.obj [("uri", Json.str "fpl://static/players"),
        ("name", Json.str "All Players"),
        ("description", Json.str "All FPL players with comprehensive statistics"),
        ("mimeType", Json.str "application/json")],
      Json.obj [("uri", Json.str "fpl://static/teams"),
        ("name", Json.str "All Teams"),
        ("description", Json.str "All Premier League teams with strength ratings"),
        ("mimeType", Json.str "application/json")],
      Json.obj [("uri", Json.str "fpl://gameweeks/current"),
        ("name", Json.str "Current Gameweek"),
        ("description", Json.str "Information about the current gameweek"),
        ("mimeType", Json.str "application/json")],
      Json.obj [("uri", Json.str "fpl://fixtures"),
        ("name", Json.str "All Fixtures"),
        ("description", Json.str "All fixtures for the current season"),
        ("mimeType", Json.str "application/json")]])])
  else if method.eqStr "tools/list" then
    rpcOk rid (Json.obj [("tools", Json.arr [
      Json.obj [("name", Json.str "compare_players"),
        ("description", Json.str "Compare multiple players across various metrics"),
        ("inputSchema", Json.obj [("type", Json.str "object"),
          ("properties", Json.obj [
            ("player_names", Json.obj [("type", Json.str "array"),
              ("items", Json.obj [("type", Json.str "string")]),
              ("description", Json.str "List of player names to compare")]),
            ("metrics", Json.obj [("type", Json.str "array"),
              ("items", Json.obj [("type", Json.str "string")]),
              ("description", Json.str "Metrics to compare (optional)")])]),
          ("required", Json.arr [Json.str "player_names"])])],
      Json.obj [("name", Json.str "analyze_player_fixtures"),
        ("description", Json.str "Analyze upcoming fixtures for a player"),
        ("inputSchema", Json.obj [("type", Json.str "object"),
          ("properties", Json.obj [
            ("player_name", Json.obj [("type", Json.str "string"),
              ("description", Json.str "Name of the player to analyze")]),
            ("num_fixtures", Json.obj [("type", Json.str "integer"),
              ("description", Json.str "Number of fixtures to analyze (default: 5)"),
              ("default", Json.num 5)])]),
          ("required", Json.arr [Json.str "player_name"])])],
      Json.obj [("name", Json.str "get_gameweek_status"),
        ("description", Json.str "Get information about current, previous, and next gameweeks"),
        ("inputSchema", Json.obj [("type", Json.str "object"),
          ("properties", Json.obj [])])]])])
  else if method.eqStr "prompts/list" then
    rpcOk rid (Json.obj [("prompts", Json.arr [
      Json.obj [("name", Json.str "player_analysis_prompt"),
        ("description", Json.str "Create a prompt for analyzing an FPL player in depth"),
        ("arguments", Json.arr [
          Json.obj [("name", Json.str "player_name"),
            ("description", Json.str "Player name"), ("required", Json.bool true)],
          Json.obj [("name", Json.str "include_comparisons"),
            ("description", Json.str "Include comparisons"),
            ("required", Json.bool false)]])],
      Json.obj [("name", Json.str "transfer_advice_prompt"),
        ("description", Json.str "Create a prompt for transfer advice"),
        ("arguments", Json.arr [
          Json.obj [("name", Json.str "budget"),
            ("description", Json.str "Available budget"), ("required", Json.bool true)],
          Json.obj [("name", Json.str "position"),
            ("description", Json.str "Target position"),
            ("required", Json.bool false)]])]])])
  else
    rpcErrData rid (-32601) ("Method not found: " ++ pyStr method)
      (Json.obj [("available_methods", Json.arr [
        Json.str "initialize", Json.str "resources/list", Json.str "resources/read",
        Json.str "tools/list", Json.str "tools/call", Json.str "prompts/list",
        Json.str "prompts/get"])])

/-!
Section: Auxiliary notions and lemmas for the theorems
-/

/-- The seven registered JSON-RPC methods, as the dispatchers test them. -/
def isRegisteredMethod (m : Json) : Bool :=
  m.eqStr "initialize" || m.eqStr "resources/list" || m.eqStr "resources/read" ||
  m.eqStr "tools/list" || m.eqStr "tools/call" || m.eqStr "prompts/list" ||
  m.eqStr "prompts/get"

/-- The URI shapes `_get_resource_data` recognizes, in source order. -/
def recognizedUri (s : String) : Bool :=
  s == "fpl://static/players" || strStartsWith s "fpl://static/players/" ||
  s == "fpl://static/teams" || strStartsWith s "fpl://static/teams/" ||
  s == "fpl://gameweeks/current" || s == "fpl://gameweeks/all" ||
  s == "fpl://fixtures" || strStartsWith s "fpl://fixtures/gameweek/" ||
  strStartsWith s "fpl://fixtures/team/" ||
  (strStartsWith s "fpl://players/" && strEndsWith s "/fixtures") ||
  s == "fpl://gameweeks/blank" || s == "fpl://gameweeks/double"

/-- The tool names `_execute_tool` dispatches on. -/
def knownToolName (n : Json) : Bool :=
  n.eqStr "compare_players" || n.eqStr "analyze_player_fixtures" ||
  n.eqStr "get_gameweek_status" || n.eqStr "analyze_players" ||
  n.eqStr "analyze_fixtures" || n.eqStr "get_blank_gameweeks" ||
  n.eqStr "get_double_gameweeks"

theorem rpcOk_id (rid r : Json) : (rpcOk rid r).lookup "id" = some rid := rfl

theorem rpcErr_id (rid : Json) (c : Int) (m : String) :
    (rpcErr rid c m).lookup "id" = some rid := rfl

theorem rpcErrData_id (rid : Json) (c : Int) (m : String) (x : Json) :
    (rpcErrData rid c m x).lookup "id" = some rid := rfl

theorem rpcErr_code (rid : Json) (c : Int) (m : String) :
    ((rpcErr rid c m).lookup "error").bind (fun e => e.lookup "code")
      = some (Json.num c) := rfl

theorem rpcErrData_code (rid : Json) (c : Int) (m : String) (x : Json) :
    ((rpcErrData rid c m x).lookup "error").bind (fun e => e.lookup "code")
      = some (Json.num c) := rfl

theorem rpcErr_no_result (rid : Json) (c : Int) (m : String) :
    (rpcErr rid c m).lookup "result" = none := rfl

theorem rpcErrData_no_result (rid : Json) (c : Int) (m : String) (x : Json) :
    (rpcErrData rid c m x).lookup "result" = none := rfl

theorem rpcOk_no_error (rid r : Json) : (rpcOk rid r).lookup "error" = none := rfl

theorem rpcOk_result (rid r : Json) : (rpcOk rid r).lookup "result" = some r := rfl

/-- A domain/tool oracle with every call succeeding trivially. -/
def trivialDomain : Domain :=
  ⟨.ok .null, fun _ => .ok [], .ok .null, fun _ => .ok .null, .ok .null,
    .ok .null, .ok .null, fun _ => .ok .null, fun _ => .ok .null,
    fun _ => .ok .null, .ok .null, .ok .null⟩

/-- A domain oracle whose teams call raised a bridge timeout. -/
def timeoutDomain : Domain :=
  { trivialDomain with teamsResource := .error "TimeoutError" }

/-- Claim C10: a POST /mcp body that is valid JSON but not an object hits
the generic exception branch (the attribute access raises) and the server
answers HTTP 500 with a non-JSON-RPC body: no `jsonrpc` and no `id`
field, neither a ParseError envelope nor a 400. -/
theorem c10_nonobject_body_500 (now : Int) (cl : Nat) (j : Json)
    (hcl : cl ≠ 0) (hj : j.isObj = false) :
    mcpHttp_handle_mcp_request now cl (.parsed j)
      = ⟨500, mcpHttp_send_error_body now 500 ("Internal error: " ++ attrGetMsg j)⟩
    ∧ (mcpHttp_handle_mcp_request now cl (.parsed j)).body.lookup "jsonrpc" = none
    ∧ (mcpHttp_handle_mcp_request now cl (.parsed j)).body.lookup "id" = none := by
  have h : mcpHttp_handle_mcp_request now cl (.parsed j)
      = ⟨500, mcpHttp_send_error_body now 500 ("Internal error: " ++ attrGetMsg j)⟩ := by
    unfold mcpHttp_handle_mcp_request
    rw [if_neg hcl]
    simp only [hj, Bool.false_eq_true, if_false]
  refine ⟨h, ?_, ?_⟩ <;> rw [h] <;> rfl

/-- Claim C6: a well-formed request whose method is not one of the seven
registered methods gets a response with `error.code = -32601` and no
`result` key (mcp_http dispatcher, and the simple_cloud_run dispatcher
which receives method/params/id already extracted). -/
theorem c6_unknown_method_32601 (req : Json) (hobj : req.isObj = true)
    (h : isRegisteredMethod (req.getD "method" Json.null) = false)
    (m p rid : Json) (h2 : isRegisteredMethod m = false) :
    (((mcpHttp_process_mcp_request req).lookup "error").bind
        (fun e => e.lookup "code") = some (Json.num (-32601))
      ∧ (mcpHttp_process_mcp_request req).lookup "result" = none)
    ∧ (((simple_process_mcp_method m p rid).lookup "error").bind
        (fun e => e.lookup "code") = some (Json.num (-32601))
      ∧ (simple_process_mcp_method m p rid).lookup "result" = none) := by
  simp only [isRegisteredMethod, Bool.or_eq_false_iff] at h h2
  obtain ⟨⟨⟨⟨⟨⟨q1, q2⟩, q3⟩, q4⟩, q5⟩, q6⟩, q7⟩ := h
  obtain ⟨⟨⟨⟨⟨⟨r1, r2⟩, r3⟩, r4⟩, r5⟩, r6⟩, r7⟩ := h2
  constructor
  · have hm : mcpHttp_process_mcp_request req
        = rpcErr (req.getD "id" Json.null) (-32601)
            ("Method not found: " ++ pyStr (req.getD "method" Json.null)) := by
      unfold mcpHttp_process_mcp_request
      simp only [q1, q2, q3, q4, q5, q6, q7, Bool.false_eq_true, if_false]
    rw [hm]
    exact ⟨rpcErr_code _ _ _, rpcErr_no_result _ _ _⟩
  · have hs : simple_process_mcp_method m p rid
        = rpcErrData rid (-32601) ("Method not found: " ++ pyStr m)
            (Json.obj [("available_methods", Json.arr [
              Json.str "initialize", Json.str "resources/list",
              Json.str "resources/read", Json.str "tools/list",
              Json.str "tools/call", Json.str "prompts/list",
              Json.str "prompts/get"])]) := by
      unfold simple_process_mcp_method
      simp only [r1, r2, r3, r4, r5, r6, r7, Bool.false_eq_true, if_false]
    rw [hs]
    exact ⟨rpcErrData_code _ _ _ _, rpcErrData_no_result _ _ _ _⟩

theorem c6_witness :
    (Json.obj [("method", Json.str "foo/bar"), ("id", Json.num 7)]).isObj = true
    ∧ isRegisteredMethod ((Json.obj [("method", Json.str "foo/bar"),
        ("id", Json.num 7)]).getD "method" Json.null) = false
    ∧ isRegisteredMethod (Json.str "foo/bar") = false
    ∧ ((((mcpHttp_process_mcp_request (Json.obj [("method", Json.str "foo/bar"),
          ("id", Json.num 7)])).lookup "error").bind (fun e => e.lookup "code")
            = some (Json.num (-32601))
        ∧ (mcpHttp_process_mcp_request (Json.obj [("method", Json.str "foo/bar"),
          ("id", Json.num 7)])).lookup "result" = none)
      ∧ (((simple_process_mcp_method (Json.str "foo/bar") (Json.obj [])
            (Json.num 7)).lookup "error").bind (fun e => e.lookup "code")
              = some (Json.num (-32601))
        ∧ (simple_process_mcp_method (Json.str "foo/bar") (Json.obj [])
            (Json.num 7)).lookup "result" = none)) :=
  ⟨rfl, by decide, by decide,
    c6_unknown_method_32601 (Json.obj [("method", Json.str "foo/bar"),
      ("id", Json.num 7)]) rfl (by decide) (Json.str "foo/bar") (Json.obj [])
      (Json.num 7) (by decide)⟩

theorem mcpHttp_read_id (rid params : Json) :
    (mcpHttp_handle_resources_read rid params).lookup "id" = some rid := by
  unfold mcpHttp_handle_resources_read
  dsimp only
  split
  · exact rpcErr_id _ _ _
  · exact rpcOk_id _ _

theorem mcpHttp_call_id (rid params : Json) :
    (mcpHttp_handle_tools_call rid params).lookup "id" = some rid := by
  unfold mcpHttp_handle_tools_call
  dsimp only
  split
  · exact rpcErr_id _ _ _
  · exact rpcOk_id _ _

theorem mcpHttp_prompt_id (rid params : Json) :
    (mcpHttp_handle_prompts_get rid params).lookup "id" = some rid := by
  unfold mcpHttp_handle_prompts_get
  dsimp only
  split
  · exact rpcErr_id _ _ _
  · exact rpcOk_id _ _

theorem mcpHttp_id_echo (req : Json) :
    (mcpHttp_process_mcp_request req).lookup "id"
      = some (req.getD "id" Json.null) := by
  unfold mcpHttp_process_mcp_request
  dsimp only
  split_ifs <;>
    first
      | exact rpcOk_id _ _
      | exact rpcErr_id _ _ _
      | exact rpcErrData_id _ _ _ _
      | exact mcpHttp_read_id _ _
      | exact mcpHttp_call_id _ _
      | exact mcpHttp_prompt_id _ _

theorem working_id_echo (loaded : Bool) (d : Domain)
    (tools : ToolInvocation → Except String Json) (req : Json) :
    (working_process_mcp_request loaded d tools req).lookup "id"
      = some (req.getD "id" Json.null) := by
  unfold working_process_mcp_request
  dsimp only
  split_ifs <;>
    first
      | exact rpcOk_id _ _
      | exact rpcErr_id _ _ _
      | (split <;>
          first
            | exact rpcOk_id _ _
            | exact rpcErr_id _ _ _)

/-- Claim C7: the response envelope's `id` equals the request's `id`
exactly and uninterpreted (a missing `id` serializes as `null`), in both
the mcp_http dispatcher and the working_cloud_run dispatcher, whatever
the domain layer does. -/
theorem c7_id_echoed (req : Json) (hobj : req.isObj = true) (loaded : Bool)
    (d : Domain) (tools : ToolInvocation → Except String Json) :
    (mcpHttp_process_mcp_request req).lookup "id"
        = some (req.getD "id" Json.null)
    ∧ (working_process_mcp_request loaded d tools req).lookup "id"
        = some (req.getD "id" Json.null) :=
  ⟨mcpHttp_id_echo req, working_id_echo loaded d tools req⟩

theorem c7_witness :
    (Json.obj [("method", Json.str "resources/read"),
      ("params", Json.obj [("uri", Json.str "fpl://static/teams")]),
      ("id", Json.str "abc")]).isObj = true
    ∧ (mcpHttp_process_mcp_request (Json.obj [("method", Json.str "resources/read"),
        ("params", Json.obj [("uri", Json.str "fpl://static/teams")]),
        ("id", Json.str "abc")])).lookup "id" = some (Json.str "abc")
    ∧ (working_process_mcp_request true trivialDomain (fun _ => .ok .null)
        (Json.obj [("method", Json.str "resources/read"),
          ("params", Json.obj [("uri", Json.str "fpl://static/teams")]),
          ("id", Json.str "abc")])).lookup "id" = some (Json.str "abc") :=
  ⟨rfl,
    (c7_id_echoed (Json.obj [("method", Json.str "resources/read"),
      ("params", Json.obj [("uri", Json.str "fpl://static/teams")]),
      ("id", Json.str "abc")]) rfl true trivialDomain (fun _ => .ok .null)).1,
    (c7_id_echoed (Json.obj [("method", Json.str "resources/read"),
      ("params", Json.obj [("uri", Json.str "fpl://static/teams")]),
      ("id", Json.str "abc")]) rfl true trivialDomain (fun _ => .ok .null)).2⟩

theorem unknown_uri_value (d : Domain) (s : String)
    (hs : recognizedUri s = false) :
    get_resource_data_str d s
      = .ok (Json.obj [("error", Json.str ("Unknown resource URI: " ++ s))]) := by
  simp only [recognizedUri, Bool.or_eq_false_iff, Bool.and_eq_false_iff] at hs
  obtain ⟨⟨⟨⟨⟨⟨⟨⟨⟨⟨⟨u1, u2⟩, u3⟩, u4⟩, u5⟩, u6⟩, u7⟩, u8⟩, u9⟩, u10⟩, u11⟩, u12⟩ := hs
  unfold get_resource_data_str
  simp only [u1, u2, u3, u4, u5, u6, u7, u8, u9, u11, u12, Bool.false_eq_true,
    if_false]
  rcases u10 with h | h <;> simp [h]

theorem unknown_tool_value (tools : ToolInvocation → Except String Json)
    (nm args : Json) (hn : knownToolName nm = false) :
    execute_tool tools nm args
      = .ok (Json.obj [("error", Json.str ("Unknown tool: " ++ pyStr nm))]) := by
  simp only [knownToolName, Bool.or_eq_false_iff] at hn
  obtain ⟨⟨⟨⟨⟨⟨t1, t2⟩, t3⟩, t4⟩, t5⟩, t6⟩, t7⟩ := hn
  unfold execute_tool
  simp only [t1, t2, t3, t4, t5, t6, t7, Bool.false_eq_true, if_false]

/-- Claim C4: a syntactically valid but unrecognized `fpl://` URI on
`resources/read`, and an unknown tool name on `tools/call`, both yield a
successful JSON-RPC `result` wrapping a structured `error` value — never
a protocol-level `error` object. -/
theorem c4_unknown_as_result (d : Domain)
    (tools : ToolInvocation → Except String Json) (s : String) (rid nm args : Json)
    (hs : recognizedUri s = false) (hne : s ≠ "")
    (hn : knownToolName nm = false) (hnt : nm.isTruthy = true) :
    get_resource_data_str d s
        = .ok (Json.obj [("error", Json.str ("Unknown resource URI: " ++ s))])
    ∧ working_process_mcp_request true d tools
        (Json.obj [("method", Json.str "resources/read"),
          ("params", Json.obj [("uri", Json.str s)]), ("id", rid)])
      = rpcOk rid (Json.obj [("contents", Json.arr [
          Json.obj [("uri", Json.str s), ("mimeType", Json.str "application/json"),
            ("text", Json.str (pyDumps (Json.obj [("error",
              Json.str ("Unknown resource URI: " ++ s))])))]])])
    ∧ (working_process_mcp_request true d tools
        (Json.obj [("method", Json.str "resources/read"),
          ("params", Json.obj [("uri", Json.str s)]), ("id", rid)])).lookup "error"
      = none
    ∧ execute_tool tools nm args
        = .ok (Json.obj [("error", Json.str ("Unknown tool: " ++ pyStr nm))])
    ∧ working_process_mcp_request true d tools
        (Json.obj [("method", Json.str "tools/call"),
          ("params", Json.obj [("name", nm), ("arguments", args)]), ("id", rid)])
      = rpcOk rid (Json.obj [("content", Json.arr [
          Json.obj [("type", Json.str "text"),
            ("text", Json.str (pyDumpsI 0 (Json.obj [("error",
              Json.str ("Unknown tool: " ++ pyStr nm))])))]])])
    ∧ (working_process_mcp_request true d tools
        (Json.obj [("method", Json.str "tools/call"),
          ("params", Json.obj [("name", nm), ("arguments", args)]),
          ("id", rid)])).lookup "error" = none := by
  have hval := unknown_uri_value d s hs
  have htool := unknown_tool_value tools nm args hn
  have hread : working_process_mcp_request true d tools
      (Json.obj [("method", Json.str "resources/read"),
        ("params", Json.obj [("uri", Json.str s)]), ("id", rid)])
      = rpcOk rid (Json.obj [("contents", Json.arr [
          Json.obj [("uri", Json.str s), ("mimeType", Json.str "application/json"),
            ("text", Json.str (pyDumps (Json.obj [("error",
              Json.str ("Unknown resource URI: " ++ s))])))]])]) := by
    unfold working_process_mcp_request
    dsimp only
    have htr : (Json.str s).isTruthy = true := by
      simp [Json.isTruthy, hne]
    simp [Json.getD, Json.lookup, List.lookup, Json.eqStr, Json.isObj, htr,
      get_resource_data, hval]
  have hcall : working_process_mcp_request true d tools
      (Json.obj [("method", Json.str "tools/call"),
        ("params", Json.obj [("name", nm), ("arguments", args)]), ("id", rid)])
      = rpcOk rid (Json.obj [("content", Json.arr [
          Json.obj [("type", Json.str "text"),
            ("text", Json.str (pyDumpsI 0 (Json.obj [("error",
              Json.str ("Unknown tool: " ++ pyStr nm))])))]])]) := by
    unfold working_process_mcp_request
    dsimp only
    simp [Json.getD, Json.lookup, List.lookup, Json.eqStr, Json.isObj, hnt, htool]
  refine ⟨hval, hread, ?_, htool, hcall, ?_⟩
  · rw [hread]; exact rpcOk_no_error _ _
  · rw [hcall]; exact rpcOk_no_error _ _

theorem c4_witness :
    recognizedUri "fpl://nonsense" = false ∧ "fpl://nonsense" ≠ ""
    ∧ knownToolName (Json.str "bogus_tool") = false
    ∧ (Json.str "bogus_tool").isTruthy = true
    ∧ get_resource_data_str trivialDomain "fpl://nonsense"
        = .ok (Json.obj [("error",
            Json.str ("Unknown resource URI: " ++ "fpl://nonsense"))])
    ∧ execute_tool (fun _ => .ok .null) (Json.str "bogus_tool") (Json.obj [])
        = .ok (Json.obj [("error",
            Json.str ("Unknown tool: " ++ pyStr (Json.str "bogus_tool")))]) :=
  ⟨by decide, by decide, by decide, by decide,
    (c4_unknown_as_result trivialDomain (fun _ => .ok .null) "fpl://nonsense"
      (Json.num 1) (Json.str "bogus_tool") (Json.obj []) (by decide) (by decide)
      (by decide) (by decide)).1,
    (c4_unknown_as_result trivialDomain (fun _ => .ok .null) "fpl://nonsense"
      (Json.num 1) (Json.str "bogus_tool") (Json.obj []) (by decide) (by decide)
      (by decide) (by decide)).2.2.2.1⟩

/-- Claim C8: omitted optional tool arguments are filled with the
documented defaults before the domain operation is invoked:
`num_fixtures` 5, `metrics` the fixed statistic list, `num_gameweeks` 5. -/
theorem c8_tool_defaults (tools : ToolInvocation → Except String Json)
    (args : Json) (hobj : args.isObj = true)
    (h1 : args.lookup "num_fixtures" = none)
    (h2 : args.lookup "metrics" = none)
    (h3 : args.lookup "num_gameweeks" = none) :
    execute_tool tools (Json.str "analyze_player_fixtures") args
        = tools (.analyzePlayerFixtures (args.getD "player_name" Json.null)
            (Json.num 5))
    ∧ execute_tool tools (Json.str "compare_players") args
        = tools (.comparePlayers (args.getD "player_names" (Json.arr []))
            defaultMetrics (args.getD "include_gameweeks" (Json.bool false))
            (Json.num 5) (args.getD "include_fixture_analysis" (Json.bool true)))
    ∧ defaultMetrics = Json.arr [Json.str "total_points", Json.str "form",
        Json.str "goals_scored", Json.str "assists", Json.str "bonus"]
    ∧ execute_tool tools (Json.str "get_blank_gameweeks") args
        = tools (.getBlankGameweeks (Json.num 5))
    ∧ execute_tool tools (Json.str "get_double_gameweeks") args
        = tools (.getDoubleGameweeks (Json.num 5)) := by
  refine ⟨?_, ?_, rfl, ?_, ?_⟩ <;>
    · unfold execute_tool
      simp [Json.eqStr, hobj, Json.getD, h1, h2, h3]

theorem c8_witness :
    (Json.obj [("player_name", Json.str "Salah")]).isObj = true
    ∧ (Json.obj [("player_name", Json.str "Salah")]).lookup "num_fixtures" = none
    ∧ (Json.obj [("player_name", Json.str "Salah")]).lookup "metrics" = none
    ∧ (Json.obj [("player_name", Json.str "Salah")]).lookup "num_gameweeks" = none
    ∧ execute_tool (fun _ => .ok .null) (Json.str "analyze_player_fixtures")
        (Json.obj [("player_name", Json.str "Salah")])
      = (fun _ => Except.ok Json.null)
          (ToolInvocation.analyzePlayerFixtures
            ((Json.obj [("player_name", Json.str "Salah")]).getD "player_name"
              Json.null) (Json.num 5)) :=
  ⟨rfl, rfl, rfl, rfl,
    (c8_tool_defaults (fun _ => .ok .null)
      (Json.obj [("player_name", Json.str "Salah")]) rfl rfl rfl rfl).1⟩

/-- Claim C1 counterexample: `run_async` submitted while the owned loop
is NOT running falls back to `loop.run_until_complete`, which has no
deadline — a 31-second unit of work blocks the caller 31 seconds, so the
claimed universal 30-unit bound is false; moreover a timed-out
`run_async_in_thread` submission returns `None` to its caller instead of
reporting an InternalError. -/
theorem c1_counterexample :
    (run_async false ⟨31, .ok Json.null⟩).2 = 31
    ∧ ¬((run_async false ⟨31, .ok Json.null⟩).2 ≤ 30)
    ∧ (run_async_in_thread true ⟨31, .ok Json.null⟩).1 = none :=
  ⟨rfl, by decide, rfl⟩

/-- Claim C1 (amended): a caller submitting through `run_async` while the
owned loop IS running blocks at most 30 units; past the deadline
`run_async` raises `TimeoutError` (the work is not killed and whatever it
later produces is discarded — the outcome is the same for every late
result), and the dispatcher reports the raise to the JSON-RPC caller as
InternalError `-32603`; `run_async_in_thread` instead swallows the
timeout and returns `None` (and returns `None` at once when no loop
exists).  Neither bridge entry point resubmits the work. -/
theorem c1_bridge_timeout (w0 w : AsyncWork) (hw : 30 < w.duration)
    (d : Domain) (tools : ToolInvocation → Except String Json) (rid : Json)
    (m : String) (hm : d.teamsResource = Except.error m) :
    (run_async true w0).2 ≤ 30
    ∧ run_async true w = (Except.error "TimeoutError", 30)
    ∧ run_async_in_thread true w = (none, 30)
    ∧ (run_async_in_thread true w0).2 ≤ 30
    ∧ run_async_in_thread false w0 = (none, 0)
    ∧ working_process_mcp_request true d tools
        (Json.obj [("method", Json.str "resources/read"),
          ("params", Json.obj [("uri", Json.str "fpl://static/teams")]),
          ("id", rid)])
      = rpcErr rid (-32603) ("Failed to read resource: " ++ m) := by
  have hnot : ¬(w.duration ≤ 30) := by omega
  refine ⟨?_, ?_, ?_, ?_, rfl, ?_⟩
  · unfold run_async
    by_cases h : w0.duration ≤ 30 <;> simp [h]
  · unfold run_async
    simp [hnot]
  · unfold run_async_in_thread
    simp [hnot]
  · unfold run_async_in_thread
    by_cases h : w0.duration ≤ 30 <;> simp [h]
  · obtain ⟨f1, f2, f3, f4, f5, f6, f7, f8, f9, f10, f11, f12⟩ := d
    dsimp only at hm
    subst hm
    rfl

theorem c1_witness :
    30 < (⟨31, .ok Json.null⟩ : AsyncWork).duration
    ∧ timeoutDomain.teamsResource = Except.error "TimeoutError"
    ∧ run_async true ⟨31, .ok Json.null⟩ = (Except.error "TimeoutError", 30)
    ∧ working_process_mcp_request true timeoutDomain (fun _ => .ok .null)
        (Json.obj [("method", Json.str "resources/read"),
          ("params", Json.obj [("uri", Json.str "fpl://static/teams")]),
          ("id", Json.num 1)])
      = rpcErr (Json.num 1) (-32603)
          ("Failed to read resource: " ++ "TimeoutError") :=
  ⟨by decide, rfl,
    (c1_bridge_timeout ⟨5, .ok Json.null⟩ ⟨31, .ok Json.null⟩ (by decide)
      timeoutDomain (fun _ => .ok .null) (Json.num 1) "TimeoutError" rfl).2.1,
    (c1_bridge_timeout ⟨5, .ok Json.null⟩ ⟨31, .ok Json.null⟩ (by decide)
      timeoutDomain (fun _ => .ok .null) (Json.num 1) "TimeoutError"
      rfl).2.2.2.2.2⟩

/-- Claim C2 counterexample: a malformed POST /mcp body does NOT produce
a JSON-RPC ParseError envelope with `id: null` — the server answers
HTTP 400 with a plain error body that has no `jsonrpc` field, no `id`
field, and carries code 400, not a -32700-class code. -/
theorem c2_counterexample :
    (mcpHttp_handle_mcp_request 0 12
        (.malformed "Expecting value: line 1 column 1 (char 0)")).status = 400
    ∧ (mcpHttp_handle_mcp_request 0 12
        (.malformed "Expecting value: line 1 column 1 (char 0)")).body.lookup
          "jsonrpc" = none
    ∧ (mcpHttp_handle_mcp_request 0 12
        (.malformed "Expecting value: line 1 column 1 (char 0)")).body.lookup
          "id" = none
    ∧ ((mcpHttp_handle_mcp_request 0 12
        (.malformed "Expecting value: line 1 column 1 (char 0)")).body.lookup
          "error").bind (fun e => e.lookup "code") = some (Json.num 400) :=
  ⟨rfl, rfl, rfl, rfl⟩

/-- Claim C2 (amended): a POST /mcp body that is not valid JSON is
answered — bypassing method resolution — with transport-level HTTP 400
and the fixed non-JSON-RPC body `{error: {code: 400, message: "Invalid
JSON", timestamp}}`, in both the mcp_http and the working_cloud_run
handlers; no JSON-RPC envelope (and hence no `id`) is produced. -/
theorem c2_malformed_http_400 (now : Int) (cl : Nat) (e : String)
    (hcl : cl ≠ 0) (loaded : Bool) (d : Domain)
    (tools : ToolInvocation → Except String Json) :
    mcpHttp_handle_mcp_request now cl (.malformed e)
        = ⟨400, mcpHttp_send_error_body now 400 "Invalid JSON"⟩
    ∧ working_handle_mcp_request loaded d tools now cl (.malformed e)
        = ⟨400, working_send_error_body now 400 "Invalid JSON"⟩
    ∧ (mcpHttp_send_error_body now 400 "Invalid JSON").lookup "jsonrpc" = none
    ∧ (mcpHttp_send_error_body now 400 "Invalid JSON").lookup "id" = none := by
  refine ⟨?_, ?_, rfl, rfl⟩
  · unfold mcpHttp_handle_mcp_request
    rw [if_neg hcl]
  · unfold working_handle_mcp_request
    rw [if_neg hcl]

theorem c2_witness :
    (12 : Nat) ≠ 0
    ∧ mcpHttp_handle_mcp_request 3 12 (.malformed "Expecting value")
        = ⟨400, mcpHttp_send_error_body 3 400 "Invalid JSON"⟩
    ∧ working_handle_mcp_request true trivialDomain (fun _ => .ok .null) 3 12
        (.malformed "Expecting value")
        = ⟨400, working_send_error_body 3 400 "Invalid JSON"⟩ :=
  ⟨by decide,
    (c2_malformed_http_400 3 12 "Expecting value" (by decide) true trivialDomain
      (fun _ => .ok .null)).1,
    (c2_malformed_http_400 3 12 "Expecting value" (by decide) true trivialDomain
      (fun _ => .ok .null)).2.1⟩

/-- Claim C5 counterexample: in server.py's MCPHandler, a POST to /mcp
with `Content-Length: 0` (or none) is NOT answered 400 — the handler
dispatches the empty request `{}` and answers HTTP 200 with a
MethodNotFound envelope. -/
theorem c5_counterexample :
    serverPy_do_POST true 0 (.parsed Json.null)
        = some ⟨200, rpcErr Json.null (-32601) "Method not found: None"⟩
    ∧ (serverPy_do_POST true 0 (.parsed Json.null)).map HttpResponse.status
        ≠ some 400 :=
  ⟨rfl, by intro h; exact absurd (Option.some.inj h) (by decide)⟩

/-- Claim C5 (amended): a POST /mcp with zero or missing Content-Length
is answered HTTP 400 by the mcp_http and working_cloud_run handlers (a
client error, not a crash or a 200); server.py's MCPHandler however
dispatches the empty request `{}` and answers 200 with a `-32601`
envelope. -/
theorem c5_empty_body (now : Int) (b : Body) (loaded : Bool) (d : Domain)
    (tools : ToolInvocation → Except String Json) :
    working_handle_mcp_request loaded d tools now 0 b
        = ⟨400, working_send_error_body now 400 "Empty request body"⟩
    ∧ mcpHttp_handle_mcp_request now 0 b
        = ⟨400, mcpHttp_send_error_body now 400 "Empty request body"⟩
    ∧ serverPy_do_POST true 0 b
        = some ⟨200, rpcErr Json.null (-32601) "Method not found: None"⟩ :=
  ⟨rfl, rfl, rfl⟩

/-- Claim C9 counterexample: two requests with identical method and
identical params but different `id`s — the produced envelopes differ
(they embed the request `id`), so envelope-level structural identity
fails even though dispatch is deterministic. -/
theorem c9_counterexample :
    (Json.obj [("method", Json.str "initialize"), ("id", Json.num 1)]).getD
        "method" Json.null
      = (Json.obj [("method", Json.str "initialize"), ("id", Json.num 2)]).getD
        "method" Json.null
    ∧ (Json.obj [("method", Json.str "initialize"), ("id", Json.num 1)]).getD
        "params" (Json.obj [])
      = (Json.obj [("method", Json.str "initialize"), ("id", Json.num 2)]).getD
        "params" (Json.obj [])
    ∧ mcpHttp_process_mcp_request
        (Json.obj [("method", Json.str "initialize"), ("id", Json.num 1)])
      ≠ mcpHttp_process_mcp_request
        (Json.obj [("method", Json.str "initialize"), ("id", Json.num 2)]) := by
  refine ⟨rfl, rfl, fun h => ?_⟩
  have h2 : some (Json.num 1) = some (Json.num 2) :=
    congrArg (fun j => j.lookup "id") h
  injection h2 with h3
  injection h3 with h4
  exact absurd h4 (by decide)

/-- Claim C9 (amended): dispatch keeps no hidden memory — it is a pure
function of the request's method, params and id (plus, for the working
server, the fixed domain oracles).  Two requests agreeing on method,
params AND id produce structurally identical envelopes; with differing
ids only the embedded `id` differs, the `result`/`error` part being
determined by method and params alone. -/
theorem c9_deterministic_dispatch (r1 r2 : Json) (loaded : Bool) (d : Domain)
    (tools : ToolInvocation → Except String Json)
    (hm : r1.getD "method" Json.null = r2.getD "method" Json.null)
    (hp : r1.getD "params" (Json.obj []) = r2.getD "params" (Json.obj []))
    (hi : r1.getD "id" Json.null = r2.getD "id" Json.null) :
    mcpHttp_process_mcp_request r1 = mcpHttp_process_mcp_request r2
    ∧ working_process_mcp_request loaded d tools r1
        = working_process_mcp_request loaded d tools r2 := by
  constructor
  · unfold mcpHttp_process_mcp_request
    rw [hm, hp, hi]
  · unfold working_process_mcp_request
    rw [hm, hp, hi]

theorem c9_witness :
    (Json.obj [("method", Json.str "tools/list"), ("id", Json.num 4)]).getD
        "method" Json.null
      = (Json.obj [("method", Json.str "tools/list"), ("id", Json.num 4)]).getD
        "method" Json.null
    ∧ mcpHttp_process_mcp_request
        (Json.obj [("method", Json.str "tools/list"), ("id", Json.num 4)])
      = mcpHttp_process_mcp_request
        (Json.obj [("method", Json.str "tools/list"), ("id", Json.num 4)]) :=
  ⟨rfl,
    (c9_deterministic_dispatch
      (Json.obj [("method", Json.str "tools/list"), ("id", Json.num 4)])
      (Json.obj [("method", Json.str "tools/list"), ("id", Json.num 4)])
      true trivialDomain (fun _ => .ok .null) rfl rfl rfl).1⟩

theorem cloudRun_ping_trace_length (now : Nat → Int) (writeOk : Nat → Bool) :
    ∀ b c, (cloudRun_ping_trace now writeOk c b).length ≤ b := by
  intro b
  induction b with
  | zero => intro c; simp [cloudRun_ping_trace]
  | succ n ih =>
    intro c
    unfold cloudRun_ping_trace
    split
    · simpa using Nat.succ_le_succ (ih (c + 1))
    · simp

theorem cloudRun_ping_trace_get (now : Nat → Int) (writeOk : Nat → Bool) :
    ∀ b c i ev, (cloudRun_ping_trace now writeOk c b).get? i = some ev →
      ev = cloudRun_ping_event (now (c + i + 1)) (c + i) := by
  intro b
  induction b with
  | zero => intro c i ev h; simp [cloudRun_ping_trace] at h
  | succ n ih =>
    intro c i ev h
    unfold cloudRun_ping_trace at h
    by_cases hw : writeOk (c + 1) = true
    · rw [if_pos hw] at h
      cases i with
      | zero =>
        simp only [List.get?] at h
        cases h
        simp
      | succ j =>
        simp only [List.get?] at h
        have := ih (c + 1) j ev h
        rw [this]
        have harith : c + 1 + j = c + (j + 1) := by omega
        rw [harith]
    · rw [if_neg hw] at h
      simp at h

/-- Claim C3 counterexample: the mcp_http stream publisher's connection
event carries no domain-availability flag, its ping events carry no
counter, and with every write succeeding the session is still emitting at
write 500 — there is no configured maximum ping count, contradicting "it
never pings forever". -/
theorem c3_counterexample :
    mcpHttp_connection_event.lookup "mcp_available" = none
    ∧ (mcpHttp_ping_event 0).lookup "count" = none
    ∧ mcpHttp_sse_event (fun _ => 0) (fun _ => true) 500
        = some (mcpHttp_ping_event 0) :=
  ⟨rfl, rfl, by
    unfold mcpHttp_sse_event
    rw [if_pos (show writesOkUpTo (fun _ => true) 500 = true by
      simp [writesOkUpTo])]
    rfl⟩

/-- Claim C3 (amended): the cloud_run stream publisher sends exactly one
`connection` event carrying server identity and the `mcp_available`
flag, then `ping` events whose `count` equals their position (hence
strictly increasing), and stops after at most 120 pings (121 events) or
on a write failure; the mcp_http publisher, however, pings with no
counter and no cap — with all writes succeeding it never stops, and it
terminates only when a write fails. -/
theorem c3_stream_sessions (avail : Bool) (now now2 now3 : Nat → Int)
    (writeOk writeOk2 : Nat → Bool) (i : Nat) (ev : Json) (n k m : Nat)
    (hw0 : writeOk 0 = true)
    (hev : (cloudRun_sse_trace avail now writeOk).get? (i + 1) = some ev)
    (hk : k ≤ m) (hkf : writeOk2 k = false) :
    (cloudRun_sse_trace avail now writeOk).length ≤ 121
    ∧ (cloudRun_sse_trace avail now writeOk).head?
        = some (cloudRun_connection_event avail)
    ∧ ev = cloudRun_ping_event (now (i + 1)) i
    ∧ mcpHttp_sse_event now3 (fun _ => true) n ≠ none
    ∧ mcpHttp_sse_event now2 writeOk2 m = none := by
  refine ⟨?_, ?_, ?_, ?_, ?_⟩
  · unfold cloudRun_sse_trace
    rw [if_pos hw0]
    simpa using Nat.succ_le_succ (cloudRun_ping_trace_length now writeOk 120 0)
  · unfold cloudRun_sse_trace
    rw [if_pos hw0]
    rfl
  · unfold cloudRun_sse_trace at hev
    rw [if_pos hw0] at hev
    simp only [List.get?] at hev
    have := cloudRun_ping_trace_get now writeOk 120 0 i ev hev
    simpa using this
  · unfold mcpHttp_sse_event
    have : writesOkUpTo (fun _ => true) n = true := by
      simp [writesOkUpTo]
    rw [if_pos this]
    exact Option.some_ne_none _
  · unfold mcpHttp_sse_event
    have hfail : writesOkUpTo writeOk2 m = false := by
      unfold writesOkUpTo
      rw [List.all_eq_false]
      exact ⟨k, by simp only [List.mem_range]; omega, by simp [hkf]⟩
    rw [if_neg (by simp [hfail])]

theorem c3_witness :
    ((fun _ => true) : Nat → Bool) 0 = true
    ∧ (cloudRun_sse_trace true (fun _ => 0) (fun _ => true)).get? 1
        = some (cloudRun_ping_event 0 0)
    ∧ (0 : Nat) ≤ 2 ∧ ((fun _ => false) : Nat → Bool) 0 = false
    ∧ (cloudRun_sse_trace true (fun _ => 0) (fun _ => true)).length ≤ 121
    ∧ cloudRun_ping_event 0 0 = cloudRun_ping_event 0 0
    ∧ mcpHttp_sse_event (fun _ => 0) (fun _ => false) 2 = none :=
  ⟨rfl, by rfl, by decide, rfl,
    (c3_stream_sessions true (fun _ => 0) (fun _ => 0) (fun _ => 0)
      (fun _ => true) (fun _ => false) 0 (cloudRun_ping_event 0 0) 3 0 2 rfl
      (by rfl) (by decide) rfl).1,
    (c3_stream_sessions true (fun _ => 0) (fun _ => 0) (fun _ => 0)
      (fun _ => true) (fun _ => false) 0 (cloudRun_ping_event 0 0) 3 0 2 rfl
      (by rfl) (by decide) rfl).2.2.1,
    (c3_stream_sessions true (fun _ => 0) (fun _ => 0) (fun _ => 0)
      (fun _ => true) (fun _ => false) 0 (cloudRun_ping_event 0 0) 3 0 2 rfl
      (by rfl) (by decide) rfl).2.2.2.2⟩

theorem c10_witness :
    (2 : Nat) ≠ 0 ∧ (Json.arr []).isObj = false
    ∧ mcpHttp_handle_mcp_request 7 2 (.parsed (Json.arr []))
        = ⟨500, mcpHttp_send_error_body 7 500
            ("Internal error: " ++ attrGetMsg (Json.arr []))⟩
    ∧ (mcpHttp_handle_mcp_request 7 2 (.parsed (Json.arr []))).body.lookup "jsonrpc" = none
    ∧ (mcpHttp_handle_mcp_request 7 2 (.parsed (Json.arr []))).body.lookup "id" = none :=
  ⟨by decide, rfl,
    (c10_nonobject_body_500 7 2 (Json.arr []) (by decide) rfl).1,
    (c10_nonobject_body_500 7 2 (Json.arr []) (by decide) rfl).2.1,
    (c10_nonobject_body_500 7 2 (Json.arr []) (by decide) rfl).2.2⟩
